import Mathlib

/-
Verification of the NV-slot key-value core in tpm-read-write.py.

The script drives a TPM 2.0 device through the tpm2-tools command line
programs.  We embed the Python functions (hexify, tpm_get_nv_indices,
tpm_get_nv_index_metadata, tpm_read_nvm, tmp_get_hardware_info, tpm_write,
tpm_delete_index) as pure Lean functions over an explicit device state.
Python strings are lists of code points, byte strings are lists of naturals
below 256, and each embedded function returns its result (or the Python
exception that escapes it) together with the device state after the call and
the list of device commands it issued, in order.
-/

namespace Tpm

/-- A Python str value, as its list of Unicode code points. -/
abbrev PyStr := List Nat

/-- A byte string, as a list of naturals below 256. -/
abbrev Bytes := List Nat

/-- Python truthiness of an Optional[str]: None and the empty string are
falsy, every non-empty string is truthy.  This is the test the source
performs everywhere it writes `if pwd:`. -/
def pwdTruthy : Option PyStr → Bool
  | none => false
  | some [] => false
  | some (_ :: _) => true

/-- The credential actually placed on the command line: the source appends
a password flag only when `if pwd:` is true, so None and the empty string
both result in no flag at all. -/
def normPwd (pwd : Option PyStr) : Option PyStr :=
  if pwdTruthy pwd then pwd else none

/-- len(pwd) for an optional password (the source only evaluates it when the
password is truthy). -/
def pwdLen : Option PyStr → Nat
  | none => 0
  | some p => p.length

/-- UTF-8 encoding of one Unicode scalar value, as value.encode("utf-8")
performs per character. -/
def encodeUtf8Char (c : Nat) : Bytes :=
  if c < 0x80 then [c]
  else if c < 0x800 then [0xC0 + c / 0x40, 0x80 + c % 0x40]
  else if c < 0x10000 then
    [0xE0 + c / 0x1000, 0x80 + (c / 0x40) % 0x40, 0x80 + c % 0x40]
  else
    [0xF0 + c / 0x40000, 0x80 + (c / 0x1000) % 0x40,
     0x80 + (c / 0x40) % 0x40, 0x80 + c % 0x40]

/-- value.encode("utf-8"): concatenation of the per-character encodings. -/
def encodeUtf8 : PyStr → Bytes
  | [] => []
  | c :: rest => encodeUtf8Char c ++ encodeUtf8 rest

/-- Is the byte a UTF-8 continuation byte. -/
def isCont (b : Nat) : Bool := 0x80 ≤ b && b ≤ 0xBF

/-- Strict UTF-8 decoding, as bytes.decode() performs: rejects stray
continuation bytes, overlong forms, surrogates and code points above
U+10FFFF.  Returns none exactly when Python raises UnicodeDecodeError. -/
def utf8Decode : Bytes → Option PyStr
  | [] => some []
  | b0 :: rest =>
    if b0 < 0x80 then
      (utf8Decode rest).map (fun t => b0 :: t)
    else if 0xC2 ≤ b0 && b0 ≤ 0xDF then
      match rest with
      | b1 :: r =>
        if isCont b1 then
          (utf8Decode r).map (fun t => ((b0 - 0xC0) * 0x40 + (b1 - 0x80)) :: t)
        else none
      | [] => none
    else if b0 == 0xE0 then
      match rest with
      | b1 :: b2 :: r =>
        if (0xA0 ≤ b1 && b1 ≤ 0xBF) && isCont b2 then
          (utf8Decode r).map
            (fun t => ((b1 - 0x80) * 0x40 + (b2 - 0x80) + 0x0) :: t)
        else none
      | _ => none
    else if (0xE1 ≤ b0 && b0 ≤ 0xEC) || (b0 == 0xEE || b0 == 0xEF) then
      match rest with
      | b1 :: b2 :: r =>
        if isCont b1 && isCont b2 then
          (utf8Decode r).map
            (fun t => ((b0 - 0xE0) * 0x1000 + (b1 - 0x80) * 0x40 + (b2 - 0x80)) :: t)
        else none
      | _ => none
    else if b0 == 0xED then
      match rest with
      | b1 :: b2 :: r =>
        if (0x80 ≤ b1 && b1 ≤ 0x9F) && isCont b2 then
          (utf8Decode r).map
            (fun t => (0xD000 + (b1 - 0x80) * 0x40 + (b2 - 0x80)) :: t)
        else none
      | _ => none
    else if b0 == 0xF0 then
      match rest with
      | b1 :: b2 :: b3 :: r =>
        if (0x90 ≤ b1 && b1 ≤ 0xBF) && (isCont b2 && isCont b3) then
          (utf8Decode r).map
            (fun t => ((b1 - 0x80) * 0x1000 + (b2 - 0x80) * 0x40 + (b3 - 0x80)) :: t)
        else none
      | _ => none
    else if 0xF1 ≤ b0 && b0 ≤ 0xF3 then
      match rest with
      | b1 :: b2 :: b3 :: r =>
        if isCont b1 && (isCont b2 && isCont b3) then
          (utf8Decode r).map
            (fun t => ((b0 - 0xF0) * 0x40000 + (b1 - 0x80) * 0x1000 +
                       (b2 - 0x80) * 0x40 + (b3 - 0x80)) :: t)
        else none
      | _ => none
    else if b0 == 0xF4 then
      match rest with
      | b1 :: b2 :: b3 :: r =>
        if (0x80 ≤ b1 && b1 ≤ 0x8F) && (isCont b2 && isCont b3) then
          (utf8Decode r).map
            (fun t => (0x100000 + (b1 - 0x80) * 0x1000 +
                       (b2 - 0x80) * 0x40 + (b3 - 0x80)) :: t)
        else none
      | _ => none
    else none

/-- Modelled from the spec: one NV slot on the device (spec section 3).  A
slot has a size fixed at definition, an optional authorization password (set
when tpm2_nvdefine ran with -p) and its current content, which is absent
until the first tpm2_nvwrite. -/
structure NvSlot where
  size : Nat
  auth : Option PyStr
  content : Option Bytes
  deriving DecidableEq, Repr

/-- Modelled from the spec: the state of the external secure-storage device
(spec sections 5 and 6): the currently allocated slots as an association
list from NV index to slot, plus the two fixed hardware properties the
script queries (TPM2_PT_NV_BUFFER_MAX and TPM2_PT_NV_INDEX_MAX). -/
structure DeviceState where
  slots : List (Nat × NvSlot)
  bufferMax : Nat
  indexMax : Nat
  deriving DecidableEq, Repr

/-- Modelled from the spec: a device-reported failure of one tpm2 command
(spec section 6: every operation either returns a well-formed result or
fails with a distinguishable error carrying a diagnostic). -/
inductive DevFail where
  | notDefined
  | alreadyDefined
  | authFailure
  | notWritten
  | sizeErr
  deriving DecidableEq, Repr

/-- Diagnostic text of a device failure, standing in for the stderr text of
the failed tpm2 command. -/
def devDiag : DevFail → String
  | .notDefined => "the handle is not defined"
  | .alreadyDefined => "the handle is already defined"
  | .authFailure => "authorization failure without DA implications"
  | .notWritten => "the NV location is not written"
  | .sizeErr => "size exceeds the defined NV area"

/-- One device command issued by the script, as recorded in a trace. -/
inductive Cmd where
  | getcapHandles
  | getcapFixed
  | nvreadpublic (idx : Nat)
  | nvread (idx : Nat) (size : Nat) (pwd : Option PyStr)
  | nvdefine (idx : Nat) (size : Nat) (pwd : Option PyStr)
  | nvwrite (idx : Nat) (data : Bytes) (pwd : Option PyStr)
  | nvundefine (idx : Nat) (pwd : Option PyStr)
  deriving DecidableEq, Repr

/-- Does the command mutate device state (define, write or undefine)? -/
def mutatesDevice : Cmd → Bool
  | .nvdefine _ _ _ => true
  | .nvwrite _ _ _ => true
  | .nvundefine _ _ => true
  | _ => false

/-- Is the command an undefine (slot deletion)? -/
def isUndefine : Cmd → Bool
  | .nvundefine _ _ => true
  | _ => false

/-- Does the undefine command carry no credential?  True for every other
command. -/
def undefineCredFree : Cmd → Bool
  | .nvundefine _ p => p.isNone
  | _ => true

/-- A Python exception escaping (or returned by) one of the embedded
functions.  assertFail tags a failed assert statement by a short name of
the assert; systemExit is the SystemExit raised by the exit(...) call in
run_command; runtimeError is the RuntimeError raised by run_command_yaml;
typeError is the TypeError raised by a membership test on None;
unicodeDecodeError is the UnicodeDecodeError raised by bytes.decode(). -/
inductive PyErr where
  | assertFail (check : String)
  | systemExit (msg : String)
  | runtimeError (msg : String)
  | typeError (msg : String)
  | unicodeDecodeError
  deriving DecidableEq, Repr

/-- The value tpm_read_nvm hands back to its caller when it returns
normally: either the decoded string, or (source line 176, "return e") the
caught exception object itself. -/
inductive ReadResult where
  | str (s : PyStr)
  | exn (e : PyErr)
  deriving DecidableEq, Repr

/-- Python == between a tpm_read_nvm result and the original str value: a
returned exception object never compares equal to a string. -/
def readResultEqStr (r : ReadResult) (v : PyStr) : Bool :=
  match r with
  | .str u => u == v
  | .exn _ => false

/-- Result of one embedded call: the normal return value or the escaping
exception, the device state when the call ends, and the device commands it
issued in order. -/
structure Res (α : Type) where
  out : Except PyErr α
  st : DeviceState
  tr : List Cmd
  deriving Repr

/-- Look up the slot at the given index. -/
def lookupSlot (idx : Nat) : List (Nat × NvSlot) → Option NvSlot
  | [] => none
  | (i, sl) :: rest => if i = idx then some sl else lookupSlot idx rest

/-- Modelled from the spec: list_slots of the Device Command Interface
(tpm2_getcap handles-nv-index): the currently allocated NV indices. -/
def dev_getcapHandles (s : DeviceState) : List Nat :=
  s.slots.map Prod.fst

/-- Modelled from the spec: slot_metadata (tpm2_nvreadpublic): the declared
size of an allocated slot, none if the index is not defined. -/
def dev_readpublicSize (idx : Nat) (s : DeviceState) : Option Nat :=
  (lookupSlot idx s.slots).map NvSlot.size

/-- Modelled from the spec: read of the Device Command Interface
(tpm2_nvread -C idx -s size [-P pwd] idx): fails if the index is not
defined, if the supplied password does not match the slot's auth value, if
the slot was never written, or if more bytes are requested than were
written; otherwise returns the first size bytes of the content. -/
def dev_nvread (idx : Nat) (size : Nat) (pwd : Option PyStr)
    (s : DeviceState) : Except DevFail Bytes :=
  match lookupSlot idx s.slots with
  | none => .error .notDefined
  | some sl =>
    if pwd = sl.auth then
      match sl.content with
      | none => .error .notWritten
      | some data =>
        if size ≤ data.length then .ok (data.take size) else .error .sizeErr
    else .error .authFailure

/-- Modelled from the spec: define of the Device Command Interface
(tpm2_nvdefine -C o -s size -a "authread|authwrite|no_da|orderly" [-p pwd]
idx): allocates a fresh, unwritten slot and echoes the nv-index back; fails
if the index is already defined.  The fixed attribute set is the same for
every slot and is not modelled further. -/
def dev_nvdefine (idx : Nat) (size : Nat) (pwd : Option PyStr)
    (s : DeviceState) : Except DevFail (Nat × DeviceState) :=
  match lookupSlot idx s.slots with
  | some _ => .error .alreadyDefined
  | none =>
    .ok (idx, { s with slots := (idx, ⟨size, pwd, none⟩) :: s.slots })

/-- Replace the content of the slot at the given index. -/
def setContent (idx : Nat) (data : Bytes) :
    List (Nat × NvSlot) → List (Nat × NvSlot)
  | [] => []
  | (i, sl) :: rest =>
    if i = idx then (i, { sl with content := some data }) :: rest
    else (i, sl) :: setContent idx data rest

/-- Remove the slot at the given index. -/
def removeSlot (idx : Nat) : List (Nat × NvSlot) → List (Nat × NvSlot)
  | [] => []
  | (i, sl) :: rest =>
    if i = idx then rest else (i, sl) :: removeSlot idx rest

/-- Modelled from the spec: write of the Device Command Interface
(tpm2_nvwrite -C idx [-P pwd] -i - idx with the bytes on stdin): fails if
the index is not defined, on an authorization mismatch, or if the data does
not fit in the defined size; otherwise stores the data. -/
def dev_nvwrite (idx : Nat) (data : Bytes) (pwd : Option PyStr)
    (s : DeviceState) : Except DevFail DeviceState :=
  match lookupSlot idx s.slots with
  | none => .error .notDefined
  | some sl =>
    if pwd = sl.auth then
      if data.length ≤ sl.size then
        .ok { s with slots := setContent idx data s.slots }
      else .error .sizeErr
    else .error .authFailure

/-- Modelled from the spec: undefine of the Device Command Interface
(tpm2_nvundefine -C o idx): removes an existing slot under the owner
hierarchy, whose authorization is empty in this model, so no per-slot
password is needed; fails if the index is not defined. -/
def dev_nvundefine (idx : Nat) (s : DeviceState) :
    Except DevFail DeviceState :=
  match lookupSlot idx s.slots with
  | none => .error .notDefined
  | some _ => .ok { s with slots := removeSlot idx s.slots }

/-- tpm_get_nv_indices (source lines 145-147): runs tpm2_getcap
handles-nv-index through run_command_yaml.  When no NV index exists the
tool prints nothing and run_command_yaml returns None (source lines
128-130), hence the Option around the list. -/
def tpm_get_nv_indices (s : DeviceState) : Res (Option (List Nat)) :=
  let hs := dev_getcapHandles s
  ⟨.ok (if hs.isEmpty then none else some hs), s, [Cmd.getcapHandles]⟩

/-- The Python membership test x in l where l is Optional[list]: raises
TypeError when l is None. -/
def pyMem (x : Nat) : Option (List Nat) → Except PyErr Bool
  | none => .error (.typeError "argument of type NoneType is not iterable")
  | some xs => .ok (xs.contains x)

/-- tpm_get_nv_index_metadata (source lines 150-157): asserts that the index
is among the currently defined NV indices, then reads its public area;
here reduced to the one field the callers use, the declared size. -/
def tpm_get_nv_index_metadata (idx : Nat) (s : DeviceState) : Res Nat :=
  let r1 := tpm_get_nv_indices s
  match r1.out with
  | .error e => ⟨.error e, r1.st, r1.tr⟩
  | .ok lst =>
    match pyMem idx lst with
    | .error e => ⟨.error e, r1.st, r1.tr⟩
    | .ok mem =>
      if mem then
        match dev_readpublicSize idx r1.st with
        | some sz => ⟨.ok sz, r1.st, r1.tr ++ [Cmd.nvreadpublic idx]⟩
        | none =>
          ⟨.error (.runtimeError "tpm2_nvreadpublic failed"), r1.st,
            r1.tr ++ [Cmd.nvreadpublic idx]⟩
      else ⟨.error (.assertFail "metadata_index_missing"), r1.st, r1.tr⟩

/-- tpm_read_nvm (source lines 160-176): reads the declared size from the
metadata, runs tpm2_nvread with the password flag added only when the
password is truthy, and decodes the stdout bytes as UTF-8.  A failing
tpm2_nvread makes run_command call exit(...), which raises SystemExit; the
except Exception handler of the source does not catch SystemExit, so that
error escapes.  The handler does catch the UnicodeDecodeError of decode()
and then returns the exception object itself (source line 176). -/
def tpm_read_nvm (idx : Nat) (pwd : Option PyStr) (s : DeviceState) :
    Res ReadResult :=
  match tpm_get_nv_index_metadata idx s with
  | ⟨.error e, s1, t1⟩ => ⟨.error e, s1, t1⟩
  | ⟨.ok nvmLength, s1, t1⟩ =>
    let cmdPwd := normPwd pwd
    let t2 := t1 ++ [Cmd.nvread idx nvmLength cmdPwd]
    match dev_nvread idx nvmLength cmdPwd s1 with
    | .error f => ⟨.error (.systemExit (devDiag f)), s1, t2⟩
    | .ok bs =>
      match utf8Decode bs with
      | some u => ⟨.ok (.str u), s1, t2⟩
      | none => ⟨.ok (.exn .unicodeDecodeError), s1, t2⟩

/-- tmp_get_hardware_info (source lines 179-181, keeping the source's
spelling): tpm2_getcap properties-fixed, reduced to the two properties
tpm_write extracts: TPM2_PT_NV_BUFFER_MAX and TPM2_PT_NV_INDEX_MAX. -/
def tmp_get_hardware_info (s : DeviceState) : Res (Nat × Nat) :=
  ⟨.ok (s.bufferMax, s.indexMax), s, [Cmd.getcapFixed]⟩

/-- tpm_write (source lines 184-238).  In source order: assert the key lies
in [0x01800000, 0x01BFFFFF]; fetch the hardware limits and assert
len(value) is at most TPM2_PT_NV_BUFFER_MAX and at most
TPM2_PT_NV_INDEX_MAX; fetch the NV indices and assert the key is not among
them (a TypeError escapes here when the device has no indices at all, since
the list is then None); if the password is truthy assert it has at least 5
characters; run tpm2_nvdefine (with -p only when the password is truthy)
and assert the response echoes the key; run tpm2_nvwrite with the UTF-8
encoding of the value; finally assert that tpm_read_nvm returns the
original value. -/
def tpm_write (key : Nat) (value : PyStr) (pwd : Option PyStr)
    (s : DeviceState) : Res Unit :=
  if 0x01800000 ≤ key ∧ key ≤ 0x01BFFFFF then
    let valueLen := value.length
    let hw := tmp_get_hardware_info s
    let chunkMaxSize := s.bufferMax
    let maxValueLen := s.indexMax
    if valueLen ≤ chunkMaxSize then
      if valueLen ≤ maxValueLen then
        let r2 := tpm_get_nv_indices s
        let t1 := hw.tr ++ r2.tr
        match r2.out with
        | .error e => ⟨.error e, s, t1⟩
        | .ok lst =>
          match pyMem key lst with
          | .error e => ⟨.error e, s, t1⟩
          | .ok mem =>
            if mem then ⟨.error (.assertFail "key_exists"), s, t1⟩
            else
              if pwdTruthy pwd ∧ pwdLen pwd < 5 then
                ⟨.error (.assertFail "pwd_too_short"), s, t1⟩
              else
                let devPwd := normPwd pwd
                let t2 := t1 ++ [Cmd.nvdefine key valueLen devPwd]
                match dev_nvdefine key valueLen devPwd s with
                | .error f => ⟨.error (.runtimeError (devDiag f)), s, t2⟩
                | .ok (echo, s1) =>
                  if echo = key then
                    let data := encodeUtf8 value
                    let t3 := t2 ++ [Cmd.nvwrite key data devPwd]
                    match dev_nvwrite key data devPwd s1 with
                    | .error f => ⟨.error (.systemExit (devDiag f)), s1, t3⟩
                    | .ok s2 =>
                      match tpm_read_nvm key pwd s2 with
                      | ⟨.error e, s3, t4⟩ => ⟨.error e, s3, t3 ++ t4⟩
                      | ⟨.ok r, s3, t4⟩ =>
                        if readResultEqStr r value then
                          ⟨.ok (), s3, t3 ++ t4⟩
                        else
                          ⟨.error (.assertFail "readback_mismatch"), s3,
                            t3 ++ t4⟩
                  else ⟨.error (.assertFail "nvdefine_echo"), s1, t2⟩
      else ⟨.error (.assertFail "value_max"), s, [Cmd.getcapFixed]⟩
    else ⟨.error (.assertFail "chunk_max"), s, [Cmd.getcapFixed]⟩
  else ⟨.error (.assertFail "key_range"), s, []⟩

/-- tpm_delete_index (source lines 241-250): asserts the key is among the
defined NV indices (TypeError on an empty device, as above), then runs
tpm2_nvundefine -C o with no password flag: the function has no password
parameter at all. -/
def tpm_delete_index (key : Nat) (s : DeviceState) : Res Unit :=
  let r1 := tpm_get_nv_indices s
  match r1.out with
  | .error e => ⟨.error e, r1.st, r1.tr⟩
  | .ok lst =>
    match pyMem key lst with
    | .error e => ⟨.error e, r1.st, r1.tr⟩
    | .ok mem =>
      if mem then
        let t2 := r1.tr ++ [Cmd.nvundefine key none]
        match dev_nvundefine key r1.st with
        | .error f => ⟨.error (.systemExit (devDiag f)), r1.st, t2⟩
        | .ok s1 => ⟨.ok (), s1, t2⟩
      else ⟨.error (.assertFail "delete_index_missing"), r1.st, r1.tr⟩

/- --------------------- helper lemmas: lookups --------------------- -/

theorem lookupSlot_mem {l : List (Nat × NvSlot)} {idx : Nat} {sl : NvSlot}
    (h : lookupSlot idx l = some sl) : idx ∈ l.map Prod.fst := by
  induction l with
  | nil => simp [lookupSlot] at h
  | cons p t ih =>
    obtain ⟨i, x⟩ := p
    rw [lookupSlot] at h
    by_cases hik : i = idx
    · simp [hik]
    · rw [if_neg hik] at h
      simp [ih h]

theorem map_fst_isEmpty_false {l : List (Nat × NvSlot)} {idx : Nat}
    (h : idx ∈ l.map Prod.fst) : (l.map Prod.fst).isEmpty = false := by
  cases l with
  | nil => simp at h
  | cons p t => simp

/- ------------- helper lemmas: state is preserved by reads ------------- -/

theorem tpm_get_nv_index_metadata_st (idx : Nat) (s : DeviceState) :
    (tpm_get_nv_index_metadata idx s).st = s := by
  rw [tpm_get_nv_index_metadata]
  repeat' split
  all_goals rfl

theorem tpm_read_nvm_st (idx : Nat) (pwd : Option PyStr) (s : DeviceState) :
    (tpm_read_nvm idx pwd s).st = s := by
  have h1 := tpm_get_nv_index_metadata_st idx s
  rw [tpm_read_nvm]
  split
  · rename_i e s1 t1 heq
    rw [heq] at h1
    exact h1
  · rename_i n s1 t1 heq
    rw [heq] at h1
    simp only at h1
    simp only []
    repeat' split
    all_goals simpa using h1

/- --------- helper lemmas: evaluating reads on an existing slot --------- -/

theorem tpm_get_nv_index_metadata_of_lookup {idx : Nat} {s : DeviceState}
    {sl : NvSlot} (h : lookupSlot idx s.slots = some sl) :
    tpm_get_nv_index_metadata idx s =
      ⟨.ok sl.size, s, [Cmd.getcapHandles, Cmd.nvreadpublic idx]⟩ := by
  have hmem := lookupSlot_mem h
  have hne := map_fst_isEmpty_false hmem
  simp [tpm_get_nv_index_metadata, tpm_get_nv_indices, dev_getcapHandles,
    dev_readpublicSize, pyMem, hne, hmem, h]

theorem tpm_read_nvm_eval {idx : Nat} {pwd : Option PyStr} {s : DeviceState}
    {sl : NvSlot} {data : Bytes}
    (h : lookupSlot idx s.slots = some sl) (hauth : normPwd pwd = sl.auth)
    (hcont : sl.content = some data) (hsz : sl.size ≤ data.length) :
    tpm_read_nvm idx pwd s =
      ⟨.ok (match utf8Decode (data.take sl.size) with
            | some u => ReadResult.str u
            | none => ReadResult.exn PyErr.unicodeDecodeError), s,
        [Cmd.getcapHandles, Cmd.nvreadpublic idx,
         Cmd.nvread idx sl.size (normPwd pwd)]⟩ := by
  rw [tpm_read_nvm, tpm_get_nv_index_metadata_of_lookup h]
  simp only [dev_nvread, h, hauth, hcont, hsz]
  simp [hsz]
  split <;> rfl

/- ---- helper lemmas: the validation prefix of tpm_write, case by case ---- -/

theorem tpm_write_range_fail {key : Nat} {value : PyStr} {pwd : Option PyStr}
    {s : DeviceState} (hr : ¬(0x01800000 ≤ key ∧ key ≤ 0x01BFFFFF)) :
    tpm_write key value pwd s = ⟨.error (.assertFail "key_range"), s, []⟩ := by
  simp [tpm_write, hr]

theorem tpm_write_chunk_fail {key : Nat} {value : PyStr} {pwd : Option PyStr}
    {s : DeviceState} (hr : 0x01800000 ≤ key ∧ key ≤ 0x01BFFFFF)
    (hc : ¬ value.length ≤ s.bufferMax) :
    tpm_write key value pwd s =
      ⟨.error (.assertFail "chunk_max"), s, [Cmd.getcapFixed]⟩ := by
  simp [tpm_write, hr, hc]

theorem tpm_write_value_fail {key : Nat} {value : PyStr} {pwd : Option PyStr}
    {s : DeviceState} (hr : 0x01800000 ≤ key ∧ key ≤ 0x01BFFFFF)
    (hc : value.length ≤ s.bufferMax) (hv : ¬ value.length ≤ s.indexMax) :
    tpm_write key value pwd s =
      ⟨.error (.assertFail "value_max"), s, [Cmd.getcapFixed]⟩ := by
  simp [tpm_write, hr, hc, hv]

theorem tpm_write_empty_device {key : Nat} {value : PyStr} {pwd : Option PyStr}
    {s : DeviceState} (hr : 0x01800000 ≤ key ∧ key ≤ 0x01BFFFFF)
    (hc : value.length ≤ s.bufferMax) (hv : value.length ≤ s.indexMax)
    (hnil : s.slots = []) :
    tpm_write key value pwd s =
      ⟨.error (.typeError "argument of type NoneType is not iterable"), s,
        [Cmd.getcapFixed, Cmd.getcapHandles]⟩ := by
  simp [tpm_write, tmp_get_hardware_info, tpm_get_nv_indices,
    dev_getcapHandles, pyMem, hr, hc, hv, hnil]

theorem tpm_write_dup_fail {key : Nat} {value : PyStr} {pwd : Option PyStr}
    {s : DeviceState} (hr : 0x01800000 ≤ key ∧ key ≤ 0x01BFFFFF)
    (hc : value.length ≤ s.bufferMax) (hv : value.length ≤ s.indexMax)
    (hmem : key ∈ s.slots.map Prod.fst) :
    tpm_write key value pwd s =
      ⟨.error (.assertFail "key_exists"), s,
        [Cmd.getcapFixed, Cmd.getcapHandles]⟩ := by
  have hne := map_fst_isEmpty_false hmem
  simp [tpm_write, tmp_get_hardware_info, tpm_get_nv_indices,
    dev_getcapHandles, pyMem, hr, hc, hv, hne, hmem]

theorem tpm_write_pwd_fail {key : Nat} {value : PyStr} {pwd : Option PyStr}
    {s : DeviceState} (hr : 0x01800000 ≤ key ∧ key ≤ 0x01BFFFFF)
    (hc : value.length ≤ s.bufferMax) (hv : value.length ≤ s.indexMax)
    (hne : s.slots ≠ []) (hnm : key ∉ s.slots.map Prod.fst)
    (hpt : pwdTruthy pwd = true) (hpl : pwdLen pwd < 5) :
    tpm_write key value pwd s =
      ⟨.error (.assertFail "pwd_too_short"), s,
        [Cmd.getcapFixed, Cmd.getcapHandles]⟩ := by
  have hemp : (s.slots.map Prod.fst).isEmpty = false := by
    cases hs : s.slots with
    | nil => exact absurd hs hne
    | cons p t => simp [hs]
  simp [tpm_write, tmp_get_hardware_info, tpm_get_nv_indices,
    dev_getcapHandles, pyMem, hr, hc, hv, hemp, hnm, hpt, hpl]


/- ------------- helper lemmas: a successful tpm_write run ------------- -/

theorem encodeUtf8Char_length_pos (c : Nat) : 1 ≤ (encodeUtf8Char c).length := by
  rw [encodeUtf8Char]
  repeat' split
  all_goals simp

theorem encodeUtf8_length_ge (v : PyStr) : v.length ≤ (encodeUtf8 v).length := by
  induction v with
  | nil => simp [encodeUtf8]
  | cons c rest ih =>
    rw [encodeUtf8]
    have h1 := encodeUtf8Char_length_pos c
    simp only [List.length_cons, List.length_append]
    omega

theorem tpm_write_ok_inv {key : Nat} {value : PyStr} {pwd : Option PyStr}
    {s s' : DeviceState} {tr : List Cmd}
    (h : tpm_write key value pwd s = ⟨.ok (), s', tr⟩) :
    lookupSlot key s'.slots =
      some ⟨value.length, normPwd pwd, some (encodeUtf8 value)⟩ ∧
    tpm_read_nvm key pwd s' =
      ⟨.ok (.str value), s',
        [Cmd.getcapHandles, Cmd.nvreadpublic key,
         Cmd.nvread key value.length (normPwd pwd)]⟩ ∧
    Cmd.nvread key value.length (normPwd pwd) ∈ tr := by
  simp only [tpm_write, tmp_get_hardware_info, tpm_get_nv_indices,
    dev_getcapHandles] at h
  split at h
  rotate_left
  · simp at h
  split at h
  rotate_left
  · simp at h
  split at h
  rotate_left
  · simp at h
  repeat' (split at h)
  all_goals try (simp at h; done)
  rename_i hrange hbuf hidx x3 mem hmem hmemf hpwd x2 echo s1 heqdef hecho
    x1 s2 heqwr x0 r s3 t4 heqread hcmp
  subst hecho
  simp only [Res.mk.injEq, and_true, true_and] at h
  obtain ⟨hst, htr⟩ := h
  cases r with
  | exn e => simp [readResultEqStr] at hcmp
  | str u =>
  simp only [readResultEqStr, beq_iff_eq] at hcmp
  subst hcmp
  rw [dev_nvdefine] at heqdef
  split at heqdef
  · simp at heqdef
  simp only [Except.ok.injEq, Prod.mk.injEq] at heqdef
  obtain ⟨-, hs1⟩ := heqdef
  subst hs1
  have hs3 := tpm_read_nvm_st echo pwd s2
  rw [heqread] at hs3
  simp only at hs3
  subst hs3
  subst hst
  rw [dev_nvwrite] at heqwr
  simp [lookupSlot] at heqwr
  split at heqwr
  rotate_left
  · simp at heqwr
  simp only [Except.ok.injEq] at heqwr
  subst heqwr
  have hlk : lookupSlot echo
      (setContent echo (encodeUtf8 u)
        ((echo, ⟨u.length, normPwd pwd, none⟩) :: s.slots)) =
      some ⟨u.length, normPwd pwd, some (encodeUtf8 u)⟩ := by
    simp [lookupSlot, setContent]
  have heval := @tpm_read_nvm_eval echo pwd
    ⟨setContent echo (encodeUtf8 u)
      ((echo, ⟨u.length, normPwd pwd, none⟩) :: s.slots),
     s.bufferMax, s.indexMax⟩
    ⟨u.length, normPwd pwd, some (encodeUtf8 u)⟩ (encodeUtf8 u)
    hlk rfl rfl (encodeUtf8_length_ge u)
  rw [heval] at heqread
  simp only [Res.mk.injEq, Except.ok.injEq, true_and, and_true] at heqread
  obtain ⟨hM, ht4⟩ := heqread
  refine ⟨hlk, ?_, ?_⟩
  · rw [heval, hM]
  · rw [← htr, ← ht4]
    simp


/- ------------- helper lemmas: which errors each call can raise ------------- -/

theorem tpm_get_nv_index_metadata_err {idx : Nat} {s : DeviceState} {e : PyErr}
    (h : (tpm_get_nv_index_metadata idx s).out = .error e) :
    e = .typeError "argument of type NoneType is not iterable" ∨
    e = .assertFail "metadata_index_missing" ∨
    e = .runtimeError "tpm2_nvreadpublic failed" := by
  rw [tpm_get_nv_index_metadata] at h
  simp only [tpm_get_nv_indices, dev_getcapHandles] at h
  by_cases hemp : (List.map Prod.fst s.slots).isEmpty = true
  · simp_all [pyMem]
  · simp only [hemp, if_false, pyMem] at h
    repeat' split at h
    all_goals simp_all

theorem tpm_read_nvm_err {idx : Nat} {pwd : Option PyStr} {s : DeviceState}
    {e : PyErr} (h : (tpm_read_nvm idx pwd s).out = .error e) :
    e = .typeError "argument of type NoneType is not iterable" ∨
    e = .assertFail "metadata_index_missing" ∨
    e = .runtimeError "tpm2_nvreadpublic failed" ∨
    ∃ m, e = .systemExit m := by
  rw [tpm_read_nvm] at h
  split at h
  · rename_i e1 s1 t1 heq
    have h2 : (tpm_get_nv_index_metadata idx s).out = .error e1 := by rw [heq]
    have h3 := tpm_get_nv_index_metadata_err h2
    simp only [Except.error.injEq] at h
    subst h
    tauto
  · rename_i n s1 t1 heq
    simp only [] at h
    repeat' split at h
    all_goals simp_all
    exact Or.inr (Or.inr (Or.inr ⟨_, h.symm⟩))

theorem tpm_write_deep_no_tag {key : Nat} {value : PyStr} {pwd : Option PyStr}
    {s : DeviceState} (hr : 0x01800000 ≤ key ∧ key ≤ 0x01BFFFFF)
    (hc : value.length ≤ s.bufferMax) (hv : value.length ≤ s.indexMax)
    {tag : String}
    (h1 : tag ≠ "key_exists") (h2 : tag ≠ "pwd_too_short")
    (h3 : tag ≠ "nvdefine_echo") (h4 : tag ≠ "readback_mismatch")
    (h5 : tag ≠ "metadata_index_missing") :
    (tpm_write key value pwd s).out ≠ .error (.assertFail tag) := by
  intro h
  simp only [tpm_write, tmp_get_hardware_info, tpm_get_nv_indices,
    dev_getcapHandles, hr, hc, hv, if_true] at h
  by_cases hnil : s.slots = []
  · simp [hnil, pyMem] at h
  · simp [hnil, pyMem] at h
    repeat' split at h
    all_goals simp_all
    rename_i heqread
    have h6 := tpm_read_nvm_err
      (show (tpm_read_nvm key pwd _).out = .error (.assertFail tag) by
        rw [heqread])
    rcases h6 with h6 | h6 | h6 | ⟨m, h6⟩ <;> simp_all

/- ------------- helper lemmas: traces contain no undefine ------------- -/

theorem tpm_get_nv_index_metadata_tr_nonmut (idx : Nat) (s : DeviceState) :
    ((tpm_get_nv_index_metadata idx s).tr.all fun c => !mutatesDevice c) =
      true := by
  rw [tpm_get_nv_index_metadata]
  repeat' split
  all_goals simp [tpm_get_nv_indices, mutatesDevice]

theorem tpm_read_nvm_tr_nonmut (idx : Nat) (pwd : Option PyStr)
    (s : DeviceState) :
    ((tpm_read_nvm idx pwd s).tr.all fun c => !mutatesDevice c) = true := by
  have hm := tpm_get_nv_index_metadata_tr_nonmut idx s
  rw [tpm_read_nvm]
  split
  · rename_i e s1 t1 heq
    rw [heq] at hm
    simpa using hm
  · rename_i n s1 t1 heq
    rw [heq] at hm
    simp only at hm
    simp only []
    repeat' split
    all_goals simp_all [mutatesDevice, List.all_append]

theorem all_not_undefine_of_nonmut {l : List Cmd}
    (h : (l.all fun c => !mutatesDevice c) = true) :
    (l.all fun c => !isUndefine c) = true := by
  simp only [List.all_eq_true] at h ⊢
  intro c hc
  have h2 := h c hc
  cases c <;> simp_all [mutatesDevice, isUndefine]

theorem read_tr_no_undef {idx : Nat} {pwd : Option PyStr} {s : DeviceState}
    {out : Except PyErr ReadResult} {st : DeviceState} {t4 : List Cmd}
    (heq : tpm_read_nvm idx pwd s = ⟨out, st, t4⟩) :
    (t4.all fun c => !isUndefine c) = true := by
  have h7 := tpm_read_nvm_tr_nonmut idx pwd s
  rw [heq] at h7
  exact all_not_undefine_of_nonmut h7

theorem tpm_write_tr_no_undefine (key : Nat) (value : PyStr)
    (pwd : Option PyStr) (s : DeviceState) :
    ((tpm_write key value pwd s).tr.all fun c => !isUndefine c) = true := by
  simp only [tpm_write, tmp_get_hardware_info, tpm_get_nv_indices,
    dev_getcapHandles]
  repeat' split
  all_goals try simp [isUndefine]
  all_goals
    first
    | (rename_i heqread hcmp
       intro x hx
       have h8 := read_tr_no_undef heqread
       simp only [List.all_eq_true] at h8
       simpa [isUndefine] using h8 x hx)
    | (rename_i heqread
       intro x hx
       have h8 := read_tr_no_undef heqread
       simp only [List.all_eq_true] at h8
       simpa [isUndefine] using h8 x hx)


/- ----------------- the hexify helper and Python equality ----------------- -/

/-
The value universe of the hexify helper (source lines 71-89): Python values
built from bool, int (with a flag recording whether the int is a HexInt, a
subclass of int that only changes __repr__), str, dict, list, tuple and set.
PyList and PyPairs are the element spines of the containers.

pyEq models the Python == comparison on this universe.  It is exact on the
atoms: True == 1 and False == 0 hold across bool and int, a HexInt equals
the plain int with the same value (the flag is ignored), and strings compare
by code points.  On containers it compares elementwise in iteration order,
so it is a sound pointwise refinement of Python ==: whenever pyEq returns
true, Python == returns True (Python additionally equates dicts and sets
whose entries are reordered, a case hexify, which preserves order, never
produces).
-/

mutual

inductive PyVal where
  | boolV : Bool → PyVal
  | intV : Int → Bool → PyVal
  | strV : PyStr → PyVal
  | dictV : PyPairs → PyVal
  | listV : PyList → PyVal
  | tupleV : PyList → PyVal
  | setV : PyList → PyVal

inductive PyList where
  | nil : PyList
  | cons : PyVal → PyList → PyList

inductive PyPairs where
  | nil : PyPairs
  | cons : PyVal → PyVal → PyPairs → PyPairs

end

mutual

def hexify : PyVal → PyVal
  | .boolV b => .boolV b
  | .intV n _ => .intV n true
  | .dictV ps => .dictV (hexifyPairs ps)
  | .listV xs => .listV (hexifyList xs)
  | .tupleV xs => .tupleV (hexifyList xs)
  | .setV xs => .setV (hexifyList xs)
  | .strV s => .strV s

def hexifyList : PyList → PyList
  | .nil => .nil
  | .cons x xs => .cons (hexify x) (hexifyList xs)

def hexifyPairs : PyPairs → PyPairs
  | .nil => .nil
  | .cons k v ps => .cons (hexify k) (hexify v) (hexifyPairs ps)

end

mutual

def pyEq : PyVal → PyVal → Bool
  | .boolV a, .boolV b => a == b
  | .boolV a, .intV n _ => (if a then (1 : Int) else 0) == n
  | .intV m _, .boolV b => m == (if b then (1 : Int) else 0)
  | .intV m _, .intV n _ => m == n
  | .strV s, .strV t => s == t
  | .dictV p, .dictV q => pyPairsEq p q
  | .listV xs, .listV ys => pyListEq xs ys
  | .tupleV xs, .tupleV ys => pyListEq xs ys
  | .setV xs, .setV ys => pyListEq xs ys
  | _, _ => false

def pyListEq : PyList → PyList → Bool
  | .nil, .nil => true
  | .cons x xs, .cons y ys => pyEq x y && pyListEq xs ys
  | _, _ => false

def pyPairsEq : PyPairs → PyPairs → Bool
  | .nil, .nil => true
  | .cons k v ps, .cons k2 v2 qs => pyEq k k2 && pyEq v v2 && pyPairsEq ps qs
  | _, _ => false

end

mutual

theorem pyEq_hexify_left : (a b : PyVal) → pyEq (hexify a) b = pyEq a b
  | .boolV x, b => by cases b <;> rfl
  | .intV n f, b => by cases b <;> rfl
  | .strV s, b => by cases b <;> rfl
  | .dictV p, b => by
    cases b <;> simp [hexify, pyEq, pyPairsEq_hexify_left p]
  | .listV l, b => by
    cases b <;> simp [hexify, pyEq, pyListEq_hexify_left l]
  | .tupleV l, b => by
    cases b <;> simp [hexify, pyEq, pyListEq_hexify_left l]
  | .setV l, b => by
    cases b <;> simp [hexify, pyEq, pyListEq_hexify_left l]

theorem pyListEq_hexify_left : (l m : PyList) →
    pyListEq (hexifyList l) m = pyListEq l m
  | .nil, m => by cases m <;> rfl
  | .cons x xs, m => by
    cases m with
    | nil => rfl
    | cons y ys =>
      simp only [hexifyList, pyListEq, pyEq_hexify_left x y,
        pyListEq_hexify_left xs ys]

theorem pyPairsEq_hexify_left : (p q : PyPairs) →
    pyPairsEq (hexifyPairs p) q = pyPairsEq p q
  | .nil, q => by cases q <;> rfl
  | .cons k v ps, q => by
    cases q with
    | nil => rfl
    | cons k2 v2 qs =>
      simp only [hexifyPairs, pyPairsEq, pyEq_hexify_left k k2,
        pyEq_hexify_left v v2, pyPairsEq_hexify_left ps qs]

end

mutual

theorem pyEq_hexify_right : (a b : PyVal) → pyEq a (hexify b) = pyEq a b
  | a, .boolV x => by cases a <;> rfl
  | a, .intV n f => by cases a <;> rfl
  | a, .strV s => by cases a <;> rfl
  | a, .dictV p => by
    cases a
    case dictV q => simpa [hexify, pyEq] using pyPairsEq_hexify_right q p
    all_goals rfl
  | a, .listV l => by
    cases a
    case listV m => simpa [hexify, pyEq] using pyListEq_hexify_right m l
    all_goals rfl
  | a, .tupleV l => by
    cases a
    case tupleV m => simpa [hexify, pyEq] using pyListEq_hexify_right m l
    all_goals rfl
  | a, .setV l => by
    cases a
    case setV m => simpa [hexify, pyEq] using pyListEq_hexify_right m l
    all_goals rfl

theorem pyListEq_hexify_right : (m l : PyList) →
    pyListEq m (hexifyList l) = pyListEq m l
  | m, .nil => by cases m <;> rfl
  | m, .cons y ys => by
    cases m with
    | nil => rfl
    | cons x xs =>
      simp only [hexifyList, pyListEq, pyEq_hexify_right x y,
        pyListEq_hexify_right xs ys]

theorem pyPairsEq_hexify_right : (q p : PyPairs) →
    pyPairsEq q (hexifyPairs p) = pyPairsEq q p
  | q, .nil => by cases q <;> rfl
  | q, .cons k2 v2 qs => by
    cases q with
    | nil => rfl
    | cons k v ps =>
      simp only [hexifyPairs, pyPairsEq, pyEq_hexify_right k k2,
        pyEq_hexify_right v v2, pyPairsEq_hexify_right ps qs]

end

mutual

theorem pyEq_hexify_self : (x : PyVal) → pyEq (hexify x) x = true
  | .boolV b => by simp [hexify, pyEq]
  | .intV n f => by simp [hexify, pyEq]
  | .strV s => by simp [hexify, pyEq]
  | .dictV p => by simpa [hexify, pyEq] using pyPairsEq_hexify_self p
  | .listV l => by simpa [hexify, pyEq] using pyListEq_hexify_self l
  | .tupleV l => by simpa [hexify, pyEq] using pyListEq_hexify_self l
  | .setV l => by simpa [hexify, pyEq] using pyListEq_hexify_self l

theorem pyListEq_hexify_self : (l : PyList) →
    pyListEq (hexifyList l) l = true
  | .nil => rfl
  | .cons x xs => by
    simp [hexifyList, pyListEq, pyEq_hexify_self x, pyListEq_hexify_self xs]

theorem pyPairsEq_hexify_self : (p : PyPairs) →
    pyPairsEq (hexifyPairs p) p = true
  | .nil => rfl
  | .cons k v ps => by
    simp [hexifyPairs, pyPairsEq, pyEq_hexify_self k, pyEq_hexify_self v,
      pyPairsEq_hexify_self ps]

end

/- ------------------------------ claims ------------------------------ -/

/-- Claim C1: for every address, value and optional password satisfying the
section-3 invariants (address in the user band, 0 < len(value) within both
device limits, address unallocated, password absent or at least 5 chars), a
successful tpm_write followed immediately by tpm_read_nvm on the same
address and password returns exactly the written value. -/
theorem C1_round_trip {key : Nat} {value : PyStr} {pwd : Option PyStr}
    {s s' : DeviceState} {tr : List Cmd}
    (hrange : 0x01800000 ≤ key ∧ key ≤ 0x01BFFFFF)
    (hpos : 0 < value.length)
    (hbuf : value.length ≤ s.bufferMax)
    (hidx : value.length ≤ s.indexMax)
    (hfree : key ∉ s.slots.map Prod.fst)
    (hpw : ∀ p, pwd = some p → 5 ≤ p.length)
    (hok : tpm_write key value pwd s = ⟨.ok (), s', tr⟩) :
    (tpm_read_nvm key pwd s').out = .ok (.str value) := by
  have h := tpm_write_ok_inv hok
  rw [h.2.1]

/-- Witness for C1 at a concrete input: writing "hello" (as code points) to
0x01800000 on a device holding one unrelated slot succeeds, and the
immediate read returns it. -/
theorem C1_round_trip_witness :
    tpm_write 0x01800000 [104, 101, 108, 108, 111] none
        ⟨[(0x01800001, ⟨1, none, some [97]⟩)], 2048, 2048⟩ =
      ⟨.ok (),
        ⟨[(0x01800000, ⟨5, none, some [104, 101, 108, 108, 111]⟩),
          (0x01800001, ⟨1, none, some [97]⟩)], 2048, 2048⟩,
        [Cmd.getcapFixed, Cmd.getcapHandles,
         Cmd.nvdefine 0x01800000 5 none,
         Cmd.nvwrite 0x01800000 [104, 101, 108, 108, 111] none,
         Cmd.getcapHandles, Cmd.nvreadpublic 0x01800000,
         Cmd.nvread 0x01800000 5 none]⟩ ∧
    (tpm_read_nvm 0x01800000 none
        ⟨[(0x01800000, ⟨5, none, some [104, 101, 108, 108, 111]⟩),
          (0x01800001, ⟨1, none, some [97]⟩)], 2048, 2048⟩).out =
      .ok (.str [104, 101, 108, 108, 111]) :=
  ⟨rfl,
   @C1_round_trip 0x01800000 [104, 101, 108, 108, 111] none
     ⟨[(0x01800001, ⟨1, none, some [97]⟩)], 2048, 2048⟩
     ⟨[(0x01800000, ⟨5, none, some [104, 101, 108, 108, 111]⟩),
       (0x01800001, ⟨1, none, some [97]⟩)], 2048, 2048⟩
     [Cmd.getcapFixed, Cmd.getcapHandles,
      Cmd.nvdefine 0x01800000 5 none,
      Cmd.nvwrite 0x01800000 [104, 101, 108, 108, 111] none,
      Cmd.getcapHandles, Cmd.nvreadpublic 0x01800000,
      Cmd.nvread 0x01800000 5 none]
     (by decide) (by decide) (by decide) (by decide) (by decide)
     (fun p hp => Option.noConfusion hp) rfl⟩

/-- Claim C2: after issuing the write command, tpm_write always reads the
same address back with the same password and compares the result against
the original value; a mismatch fails the call, and no undefine command is
ever issued inside the write path. -/
theorem C2_readback_no_rollback (key : Nat) (value : PyStr)
    (pwd : Option PyStr) (s : DeviceState) :
    ((tpm_write key value pwd s).tr.all fun c => !isUndefine c) = true ∧
    ((tpm_write key value pwd s).out = .ok () →
      Cmd.nvread key value.length (normPwd pwd) ∈
        (tpm_write key value pwd s).tr ∧
      (tpm_read_nvm key pwd (tpm_write key value pwd s).st).out =
        .ok (.str value)) := by
  refine ⟨tpm_write_tr_no_undefine key value pwd s, fun hok => ?_⟩
  rcases hw : tpm_write key value pwd s with ⟨o, st2, tr2⟩
  rw [hw] at hok
  simp only at hok
  subst hok
  have h := tpm_write_ok_inv hw
  refine ⟨h.2.2, ?_⟩
  show (tpm_read_nvm key pwd st2).out = _
  rw [h.2.1]

/-- Witness for C2 at the concrete input of the C1 witness. -/
theorem C2_readback_no_rollback_witness :
    ((tpm_write 0x01800000 [104, 101, 108, 108, 111] none
        ⟨[(0x01800001, ⟨1, none, some [97]⟩)], 2048, 2048⟩).tr.all
      fun c => !isUndefine c) = true ∧
    (Cmd.nvread 0x01800000 5 none ∈
      (tpm_write 0x01800000 [104, 101, 108, 108, 111] none
        ⟨[(0x01800001, ⟨1, none, some [97]⟩)], 2048, 2048⟩).tr ∧
     (tpm_read_nvm 0x01800000 none
        (tpm_write 0x01800000 [104, 101, 108, 108, 111] none
          ⟨[(0x01800001, ⟨1, none, some [97]⟩)], 2048, 2048⟩).st).out =
       .ok (.str [104, 101, 108, 108, 111])) :=
  ⟨(C2_readback_no_rollback 0x01800000 [104, 101, 108, 108, 111] none
      ⟨[(0x01800001, ⟨1, none, some [97]⟩)], 2048, 2048⟩).1,
   (C2_readback_no_rollback 0x01800000 [104, 101, 108, 108, 111] none
      ⟨[(0x01800001, ⟨1, none, some [97]⟩)], 2048, 2048⟩).2 rfl⟩

/-- The device state of the C3 failing input: a slot at 0x01800000 created
with password "abcde" holding "hello", and a defined-but-unwritten slot at
0x01800002. -/
def sAuth : DeviceState :=
  ⟨[(0x01800000, ⟨5, some [97, 98, 99, 100, 101], some [104, 101, 108, 108, 111]⟩),
    (0x01800002, ⟨3, none, none⟩)], 2048, 2048⟩

/-- Claim C3 (code bug): reading the password-protected slot without a
password does not surface a catchable, distinguishable AuthenticationError:
run_command calls exit(), raising SystemExit, which the except-Exception
handler of tpm_read_nvm (written for exactly this case, source line 175)
cannot catch, so the process terminates with the same SystemExit shape as
any other device failure (compare the unwritten-slot read below).  Reading
with the correct password "abcde" does return the original value, as the
claim says. -/
theorem C3_auth_read_exits :
    (tpm_read_nvm 0x01800000 none sAuth).out =
      .error (.systemExit (devDiag .authFailure)) ∧
    (tpm_read_nvm 0x01800000 (some [97, 98, 99, 100, 101]) sAuth).out =
      .ok (.str [104, 101, 108, 108, 111]) ∧
    (tpm_read_nvm 0x01800002 none sAuth).out =
      .error (.systemExit (devDiag .notWritten)) :=
  ⟨rfl, rfl, rfl⟩

/-- The device state of the C4 counterexample: one slot protected by the
password "abcde". -/
def sPwdSlot : DeviceState :=
  ⟨[(0x01800000, ⟨5, some [97, 98, 99, 100, 101], some [104, 101, 108, 108, 111]⟩)],
    2048, 2048⟩

/-- Counterexample to C4: tpm_delete_index has no password parameter, and
deleting a password-protected slot issues the undefine command with no
credential at all (it succeeds only because the command runs under the
owner hierarchy). -/
theorem C4_counterexample :
    (tpm_delete_index 0x01800000 sPwdSlot).out = .ok () ∧
    (tpm_delete_index 0x01800000 sPwdSlot).tr =
      [Cmd.getcapHandles, Cmd.nvundefine 0x01800000 none] :=
  ⟨rfl, rfl⟩

/-- Claim C4 as amended: tpm_delete_index accepts no credential; every
undefine command it issues carries none. -/
theorem C4_amended (key : Nat) (s : DeviceState) :
    ((tpm_delete_index key s).tr.all undefineCredFree) = true := by
  rw [tpm_delete_index]
  repeat' split
  all_goals simp [tpm_get_nv_indices, undefineCredFree]

/-- The device state of the C5 counterexample and witness: one unrelated
slot, both limits 2048. -/
def sOne : DeviceState := ⟨[(0x01800001, ⟨1, none, some [97]⟩)], 2048, 2048⟩

/-- Counterexample to C5: the empty value is not rejected — tpm_write ""
passes every validation check, issues the mutating define command (size 0)
and even succeeds. -/
theorem C5_counterexample :
    (tpm_write 0x01800000 [] none sOne).out = .ok () ∧
    Cmd.nvdefine 0x01800000 0 none ∈ (tpm_write 0x01800000 [] none sOne).tr :=
  ⟨rfl, by decide⟩

/-- Claim C5 as amended: the size validation enforces only the two upper
bounds — it fails with the chunk-size assertion exactly when len(value)
exceeds TPM2_PT_NV_BUFFER_MAX, with the value-size assertion exactly when
it fits the buffer but exceeds TPM2_PT_NV_INDEX_MAX, and no size assertion
fires when both bounds hold; there is no 0 < len(value) check. -/
theorem C5_amended {key : Nat} {value : PyStr} {pwd : Option PyStr}
    {s : DeviceState} (hr : 0x01800000 ≤ key ∧ key ≤ 0x01BFFFFF) :
    (s.bufferMax < value.length →
      (tpm_write key value pwd s).out = .error (.assertFail "chunk_max")) ∧
    (value.length ≤ s.bufferMax → s.indexMax < value.length →
      (tpm_write key value pwd s).out = .error (.assertFail "value_max")) ∧
    (value.length ≤ s.bufferMax → value.length ≤ s.indexMax →
      (tpm_write key value pwd s).out ≠ .error (.assertFail "chunk_max") ∧
      (tpm_write key value pwd s).out ≠ .error (.assertFail "value_max")) := by
  refine ⟨fun hc => ?_, fun hc hv => ?_, fun hc hv => ?_⟩
  · rw [tpm_write_chunk_fail hr (by omega)]
  · rw [tpm_write_value_fail hr hc (by omega)]
  · exact ⟨tpm_write_deep_no_tag hr hc hv (by decide) (by decide) (by decide)
        (by decide) (by decide),
      tpm_write_deep_no_tag hr hc hv (by decide) (by decide) (by decide)
        (by decide) (by decide)⟩

/-- The asymmetric-limit device of the C5 witness: buffer limit 8, value
limit 4. -/
def sAsym : DeviceState := ⟨[(0x01800001, ⟨1, none, some [97]⟩)], 8, 4⟩

/-- Witness for C5 as amended, exercising all three conjuncts at concrete
inputs. -/
theorem C5_amended_witness :
    ((tpm_write 0x01800000 [104, 101, 108, 104, 101, 108, 104, 101, 108] none
        sAsym).out = .error (.assertFail "chunk_max")) ∧
    ((tpm_write 0x01800000 [104, 101, 108, 108, 111] none sAsym).out =
      .error (.assertFail "value_max")) ∧
    ((tpm_write 0x01800000 [104] none sOne).out ≠
      .error (.assertFail "chunk_max") ∧
     (tpm_write 0x01800000 [104] none sOne).out ≠
      .error (.assertFail "value_max")) :=
  ⟨(C5_amended (by decide)).1 (by decide),
   (C5_amended (by decide)).2.1 (by decide) (by decide),
   (C5_amended (by decide)).2.2 (by decide) (by decide)⟩


/-- Claim C6: whenever any validation check of tpm_write fails (range, size,
duplicate address, or weak credential), the call ends in an error before any
mutating device command, the device state is unchanged, and the slot
enumeration is identical before and after.  (On a device with no NV index
at all, the membership test runs on None and the call dies of the resulting
TypeError, still before any mutation.) -/
theorem C6_validation_side_effect_free {key : Nat} {value : PyStr}
    {pwd : Option PyStr} {s : DeviceState}
    (hfail : ¬(0x01800000 ≤ key ∧ key ≤ 0x01BFFFFF) ∨
      s.bufferMax < value.length ∨ s.indexMax < value.length ∨
      key ∈ dev_getcapHandles s ∨
      (pwdTruthy pwd = true ∧ pwdLen pwd < 5)) :
    (∃ e, (tpm_write key value pwd s).out = .error e) ∧
    (tpm_write key value pwd s).st = s ∧
    dev_getcapHandles (tpm_write key value pwd s).st = dev_getcapHandles s ∧
    ((tpm_write key value pwd s).tr.all fun c => !mutatesDevice c) = true := by
  by_cases hr : 0x01800000 ≤ key ∧ key ≤ 0x01BFFFFF
  rotate_left
  · rw [tpm_write_range_fail hr]
    exact ⟨⟨_, rfl⟩, rfl, rfl, by simp [mutatesDevice]⟩
  by_cases hc : value.length ≤ s.bufferMax
  rotate_left
  · rw [tpm_write_chunk_fail hr hc]
    exact ⟨⟨_, rfl⟩, rfl, rfl, by simp [mutatesDevice]⟩
  by_cases hv : value.length ≤ s.indexMax
  rotate_left
  · rw [tpm_write_value_fail hr hc hv]
    exact ⟨⟨_, rfl⟩, rfl, rfl, by simp [mutatesDevice]⟩
  cases hs : s.slots with
  | nil =>
    rw [tpm_write_empty_device hr hc hv hs]
    exact ⟨⟨_, rfl⟩, rfl, rfl, by simp [mutatesDevice]⟩
  | cons p t =>
    by_cases hmem : key ∈ s.slots.map Prod.fst
    · rw [tpm_write_dup_fail hr hc hv hmem]
      exact ⟨⟨_, rfl⟩, rfl, rfl, by simp [mutatesDevice]⟩
    · by_cases hpw : pwdTruthy pwd = true ∧ pwdLen pwd < 5
      · obtain ⟨hpt, hpl⟩ := hpw
        rw [tpm_write_pwd_fail hr hc hv (by rw [hs]; exact List.cons_ne_nil p t)
          hmem hpt hpl]
        exact ⟨⟨_, rfl⟩, rfl, rfl, by simp [mutatesDevice]⟩
      · exfalso
        rcases hfail with hx | hx | hx | hx | hx
        · exact hx hr
        · omega
        · omega
        · exact hmem (by simpa [dev_getcapHandles] using hx)
        · exact hpw hx

/-- Witness for C6 at a concrete input: an out-of-range address leaves the
one-slot device untouched. -/
theorem C6_validation_side_effect_free_witness :
    (∃ e, (tpm_write 0x01C00000 [104] none sOne).out = .error e) ∧
    (tpm_write 0x01C00000 [104] none sOne).st = sOne ∧
    dev_getcapHandles (tpm_write 0x01C00000 [104] none sOne).st =
      dev_getcapHandles sOne ∧
    ((tpm_write 0x01C00000 [104] none sOne).tr.all
      fun c => !mutatesDevice c) = true :=
  C6_validation_side_effect_free (Or.inl (by decide))

/-- The device state of the C7 counterexample and witness: a slot whose
content is the single byte 0xFF, which is not valid UTF-8. -/
def sRaw : DeviceState := ⟨[(0x01800000, ⟨1, none, some [255]⟩)], 2048, 2048⟩

/-- Counterexample to C7: tpm_read_nvm does not return the stored bytes
unchanged — for a slot holding the byte 0xFF it returns the caught
UnicodeDecodeError exception object instead of the byte. -/
theorem C7_counterexample :
    (tpm_read_nvm 0x01800000 none sRaw).out =
      .ok (.exn .unicodeDecodeError) := rfl

/-- Claim C7 as amended: for every existing written slot read with the
matching credential, tpm_read_nvm decodes the stored bytes as UTF-8 and
returns the decoded string; when the bytes are not valid UTF-8 the decode
raises UnicodeDecodeError, which the handler catches and returns as the
result in place of the value — raw bytes are never handed back as bytes. -/
theorem C7_amended {idx : Nat} {pwd : Option PyStr} {s : DeviceState}
    {sl : NvSlot} {data : Bytes}
    (h : lookupSlot idx s.slots = some sl) (hauth : normPwd pwd = sl.auth)
    (hcont : sl.content = some data) (hsz : sl.size ≤ data.length) :
    (tpm_read_nvm idx pwd s).out =
      .ok (match utf8Decode (data.take sl.size) with
           | some u => ReadResult.str u
           | none => ReadResult.exn PyErr.unicodeDecodeError) := by
  rw [tpm_read_nvm_eval h hauth hcont hsz]

/-- Witness for C7 as amended at the 0xFF slot. -/
theorem C7_amended_witness :
    (tpm_read_nvm 0x01800000 none sRaw).out =
      .ok (.exn .unicodeDecodeError) :=
  @C7_amended 0x01800000 none sRaw ⟨1, none, some [255]⟩ [255]
    rfl rfl rfl (by decide)

/-- Claim C8: the range guard accepts exactly the band ends — the top
address 0x01BFFFFF never fails the range assertion while 0x01C00000 fails
it immediately with the state untouched — and the size guard accepts
len(value) equal to the transfer limit (when, as on the reference device,
it does not exceed the value limit) while one byte more fails the
chunk-size assertion. -/
theorem C8_boundaries :
    (∀ value : PyStr, ∀ pwd : Option PyStr, ∀ s : DeviceState,
      (tpm_write 0x01BFFFFF value pwd s).out ≠
        .error (.assertFail "key_range")) ∧
    (∀ value : PyStr, ∀ pwd : Option PyStr, ∀ s : DeviceState,
      tpm_write 0x01C00000 value pwd s =
        ⟨.error (.assertFail "key_range"), s, []⟩) ∧
    (∀ key : Nat, ∀ value : PyStr, ∀ pwd : Option PyStr, ∀ s : DeviceState,
      0x01800000 ≤ key ∧ key ≤ 0x01BFFFFF →
      s.bufferMax ≤ s.indexMax → value.length = s.bufferMax →
      (tpm_write key value pwd s).out ≠ .error (.assertFail "chunk_max") ∧
      (tpm_write key value pwd s).out ≠ .error (.assertFail "value_max")) ∧
    (∀ key : Nat, ∀ value : PyStr, ∀ pwd : Option PyStr, ∀ s : DeviceState,
      0x01800000 ≤ key ∧ key ≤ 0x01BFFFFF →
      value.length = s.bufferMax + 1 →
      tpm_write key value pwd s =
        ⟨.error (.assertFail "chunk_max"), s, [Cmd.getcapFixed]⟩) := by
  refine ⟨fun value pwd s => ?_, fun value pwd s => ?_,
    fun key value pwd s hr hbi hlen => ?_, fun key value pwd s hr hlen => ?_⟩
  · have hr : (0x01800000 : Nat) ≤ 0x01BFFFFF ∧
        (0x01BFFFFF : Nat) ≤ 0x01BFFFFF := by decide
    by_cases hc : value.length ≤ s.bufferMax
    · by_cases hv : value.length ≤ s.indexMax
      · exact tpm_write_deep_no_tag hr hc hv (by decide) (by decide)
          (by decide) (by decide) (by decide)
      · rw [tpm_write_value_fail hr hc hv]
        simp
    · rw [tpm_write_chunk_fail hr hc]
      simp
  · exact tpm_write_range_fail (by decide)
  · exact ⟨tpm_write_deep_no_tag hr (by omega) (by omega) (by decide)
        (by decide) (by decide) (by decide) (by decide),
      tpm_write_deep_no_tag hr (by omega) (by omega) (by decide) (by decide)
        (by decide) (by decide) (by decide)⟩
  · exact tpm_write_chunk_fail hr (by omega)

/-- The small-limit device of the C8 witness: both limits 5, one unrelated
slot. -/
def sFive : DeviceState := ⟨[(0x01800001, ⟨1, none, some [97]⟩)], 5, 5⟩

/-- Witness for C8 at concrete inputs: writing 5 bytes at the top address
of the band raises neither the range nor a size assertion; the address one
past the band fails the range assertion; 6 bytes fail the chunk assertion. -/
theorem C8_boundaries_witness :
    ((tpm_write 0x01BFFFFF [104, 101, 108, 108, 111] none sFive).out ≠
      .error (.assertFail "key_range")) ∧
    (tpm_write 0x01C00000 [104] none sFive =
      ⟨.error (.assertFail "key_range"), sFive, []⟩) ∧
    ((tpm_write 0x01BFFFFF [104, 101, 108, 108, 111] none sFive).out ≠
      .error (.assertFail "chunk_max") ∧
     (tpm_write 0x01BFFFFF [104, 101, 108, 108, 111] none sFive).out ≠
      .error (.assertFail "value_max")) ∧
    (tpm_write 0x01BFFFFF [104, 101, 108, 108, 111, 33] none sFive =
      ⟨.error (.assertFail "chunk_max"), sFive, [Cmd.getcapFixed]⟩) :=
  ⟨C8_boundaries.1 [104, 101, 108, 108, 111] none sFive,
   C8_boundaries.2.1 [104] none sFive,
   C8_boundaries.2.2.1 0x01BFFFFF [104, 101, 108, 108, 111] none sFive
     (by decide) (by decide) (by decide),
   C8_boundaries.2.2.2 0x01BFFFFF [104, 101, 108, 108, 111, 33] none sFive
     (by decide) (by decide)⟩

/-- Claim C9: passing the empty string as the password is identical to
passing no password at all, for both tpm_write and tpm_read_nvm: the empty
string is falsy, so the minimum-length assert is skipped and no credential
flag reaches the device. -/
theorem C9_empty_password :
    (∀ key : Nat, ∀ value : PyStr, ∀ s : DeviceState,
      tpm_write key value (some []) s = tpm_write key value none s) ∧
    (∀ idx : Nat, ∀ s : DeviceState,
      tpm_read_nvm idx (some []) s = tpm_read_nvm idx none s) :=
  ⟨fun _ _ _ => rfl, fun _ _ => rfl⟩

/-- Claim C10: hexify is the identity up to Python equality on every value
built from booleans, ints, strings, dicts, lists, tuples and sets: it keeps
booleans as bool (the bool branch precedes the int branch), turns ints into
HexInts equal to the original, preserves container structure, and is
transparent to == on either side, so comparisons of hexified device
responses (the nv-index echo check, the duplicate-address membership test)
behave exactly as on the raw values. -/
theorem C10_hexify_identity :
    (∀ x : PyVal, pyEq (hexify x) x = true) ∧
    (∀ b : Bool, hexify (PyVal.boolV b) = PyVal.boolV b) ∧
    (∀ a b : PyVal, pyEq (hexify a) b = pyEq a b) ∧
    (∀ a b : PyVal, pyEq a (hexify b) = pyEq a b) :=
  ⟨pyEq_hexify_self, fun _ => rfl, pyEq_hexify_left, pyEq_hexify_right⟩


end Tpm
